import Mathlib

/-!
Shallow embedding of the job-information capture feature of the
intellimock-app repository.

Embedded code:
- src/src/features/jobInfos/schemas.ts, jobInfoSchema: a zod object schema
  with per-field checks plus a superRefine step that conditionally requires
  the description field.
- src/src/features/jobInfos/components/JobInfoForm.tsx: the component state
  (technologies list, techInput, resumeFile, isParsingResume, useResumeMode,
  the hasResume form value) and its handlers addTechnology, removeTechnology,
  handleResumeUpload and clearResume.

The asynchronous handler handleResumeUpload is split at its single await
point into uploadStart (everything before the fetch resolves) and
uploadFinish (the continuation that consumes the fetch outcome), with the
outcome of the network call supplied explicitly, so that interleavings of
two in-flight requests can be expressed.
-/

/-- JavaScript String.prototype.trim: removes leading and trailing
whitespace characters. Defined structurally over the character list so
that it evaluates by kernel reduction on concrete strings. -/
def jsTrim (s : String) : String :=
  ⟨((s.data.dropWhile Char.isWhitespace).reverse.dropWhile Char.isWhitespace).reverse⟩

/-- The in-progress job-information record, after the field shape of
jobInfoSchema in src/src/features/jobInfos/schemas.ts: hasResume is
declared with z.boolean().optional(), so it is modelled as Option Bool
(none is the absent/undefined case). The title field is nullable. -/
structure JobInfoDraft where
  name : String
  title : Option String
  experienceLevel : String
  technologies : List String
  description : String
  hasResume : Option Bool
deriving DecidableEq

/-- Validation of the name field: z.string().min(1, "Required") reports
"Required" exactly when the raw string length is below 1. The source does
not trim before measuring. -/
def nameError (d : JobInfoDraft) : Option String :=
  if d.name.length < 1 then some "Required" else none

/-- Validation of the title field: z.string().min(1).nullable() accepts
null, and otherwise reports the default zod too-small message when the
string length is below 1. -/
def titleError (d : JobInfoDraft) : Option String :=
  match d.title with
  | none => none
  | some t =>
      if t.length < 1 then some "String must contain at least 1 character(s)"
      else none

/-- Validation of the description field, from the superRefine step of
jobInfoSchema: an issue with message "Required" is added on path
["description"] when !data.hasResume (false or undefined) and the
description is falsy (empty string) or trims to length zero. -/
def descriptionError (d : JobInfoDraft) : Option String :=
  if !(d.hasResume.getD false) && (d.description == "" || (jsTrim d.description).length == 0)
  then some "Required" else none

/-- addTechnology in JobInfoForm.tsx, restricted to its effect on the
technologies list: append unless already present (Array.prototype.includes,
case-sensitive). -/
def addTech (techs : List String) (tech : String) : List String :=
  if techs.contains tech then techs else techs ++ [tech]

/-- removeTechnology in JobInfoForm.tsx, restricted to its effect on the
technologies list: filter out entries strictly equal to the argument. -/
def removeTech (techs : List String) (tech : String) : List String :=
  techs.filter (fun t => t != tech)

/-- The file object seen by handleResumeUpload; fileType is the media
type (file.type in the source). -/
structure ResumeFile where
  name : String
  fileType : String
deriving DecidableEq

/-- The component state of JobInfoForm that the resume workflow touches:
the form draft (including the hasResume value), the techInput text, and
the three useState cells resumeFile, isParsingResume, useResumeMode. -/
structure FormState where
  draft : JobInfoDraft
  techInput : String
  resumeFile : Option ResumeFile
  isParsingResume : Bool
  useResumeMode : Bool
deriving DecidableEq

/-- Notifications emitted through the toast API in JobInfoForm.tsx. -/
inductive Toast where
  | error (msg : String)
  | success (msg : String)
  | warning (msg : String)
deriving DecidableEq

/-- The shape of the skills field of the parsed JSON response body, as
tested by the source condition data.skills && Array.isArray(data.skills):
the field can be absent (or falsy), present but not an array, or an array
of strings. -/
inductive SkillsField where
  | absent
  | nonListValue
  | listValue (skills : List String)
deriving DecidableEq

/-- Outcome of the fetch to /api/parse-resume as observed by the handler:
failure covers a transport-level rejection and a non-ok HTTP status (the
source throws on !response.ok, landing in the same catch block); success
carries the skills field of the JSON body. -/
inductive FetchOutcome where
  | failure
  | success (skills : SkillsField)
deriving DecidableEq

/-- What the synchronous prefix of handleResumeUpload did: returned early
for a missing file, rejected a non-PDF file locally (no network call), or
issued the network request for the given file. -/
inductive UploadStartResult where
  | noFile
  | rejectedInvalidType
  | requested (file : ResumeFile)
deriving DecidableEq

/-- The synchronous prefix of handleResumeUpload (lines before the fetch
resolves): early return when no file is selected; for a file whose type is
not "application/pdf", a toast error and early return with no state
change; otherwise set resumeFile, isParsingResume, useResumeMode and the
hasResume form value, and issue the request. -/
def uploadStart (s : FormState) (file : Option ResumeFile) :
    FormState × List Toast × UploadStartResult :=
  match file with
  | none => (s, [], .noFile)
  | some f =>
      if f.fileType != "application/pdf" then
        (s, [.error "Please upload a PDF file"], .rejectedInvalidType)
      else
        ({ s with
            resumeFile := some f
            isParsingResume := true
            useResumeMode := true
            draft := { s.draft with hasResume := some true } },
         [], .requested f)

/-- The continuation of handleResumeUpload after the await: on a thrown
error (transport failure or non-ok status) the catch block toasts an
error, sets useResumeMode to false and resumeFile to null; on a response
whose skills field is an array, the technologies form value is set to
that array verbatim and a success toast is shown; otherwise a warning
toast is shown. The finally block clears isParsingResume in every case.
Note the catch block does not touch the hasResume form value. -/
def uploadFinish (s : FormState) (o : FetchOutcome) : FormState × List Toast :=
  match o with
  | .failure =>
      ({ s with useResumeMode := false, resumeFile := none, isParsingResume := false },
       [.error "Failed to parse resume. Please try again."])
  | .success (.listValue skills) =>
      ({ s with
          draft := { s.draft with technologies := skills }
          isParsingResume := false },
       [.success ("Found " ++ toString skills.length ++ " technologies in your resume")])
  | .success .absent =>
      ({ s with isParsingResume := false },
       [.warning "No technologies found in resume"])
  | .success .nonListValue =>
      ({ s with isParsingResume := false },
       [.warning "No technologies found in resume"])

/-- clearResume in JobInfoForm.tsx: drop the file, leave resume mode,
empty the technologies list and reset the hasResume form value. -/
def clearResume (s : FormState) : FormState :=
  { s with
      resumeFile := none
      useResumeMode := false
      draft := { s.draft with technologies := [], hasResume := some false } }

/-- The operations that mutate the technologies list in JobInfoForm.tsx:
manual add, manual remove, the clear performed by clearResume, and the
verbatim assignment performed by a successful extraction. -/
inductive TechOp where
  | add (tech : String)
  | remove (tech : String)
  | clear
  | applyExtraction (skills : List String)
deriving DecidableEq

/-- Effect of one technologies-list operation, each case taken from the
corresponding handler in JobInfoForm.tsx. -/
def applyTechOp (techs : List String) (op : TechOp) : List String :=
  match op with
  | .add tech => addTech techs tech
  | .remove tech => removeTech techs tech
  | .clear => []
  | .applyExtraction skills => skills

/-- Run a sequence of technologies-list operations from the empty list
(the default form value). -/
def runTechOps (ops : List TechOp) : List String :=
  ops.foldl applyTechOp []

/-- Boolean check that an operation, if it is an extraction application,
carries a duplicate-free list. -/
def extractionDupFree (op : TechOp) : Bool :=
  match op with
  | .applyExtraction skills => decide skills.Nodup
  | _ => true

/-- A sample draft with the given description and hasResume value. -/
def sampleDraft (desc : String) (hr : Option Bool) : JobInfoDraft :=
  { name := "Job", title := none, experienceLevel := "junior",
    technologies := [], description := desc, hasResume := hr }

/-- A sample draft with the given name. -/
def sampleDraftNamed (nm : String) : JobInfoDraft :=
  { name := nm, title := none, experienceLevel := "junior",
    technologies := [], description := "d", hasResume := some false }

/-- A sample draft with the given title. -/
def sampleDraftTitled (t : Option String) : JobInfoDraft :=
  { name := "Job", title := t, experienceLevel := "junior",
    technologies := [], description := "d", hasResume := some false }

/-- The initial manual-mode component state (the default form values of
JobInfoForm: empty fields, hasResume false, no file attached). -/
def manualState : FormState :=
  { draft := sampleDraft "" (some false), techInput := "",
    resumeFile := none, isParsingResume := false, useResumeMode := false }

/-- A PDF file input. -/
def pdfFile : ResumeFile := { name := "resume.pdf", fileType := "application/pdf" }

/-- A non-PDF file input. -/
def txtFile : ResumeFile := { name := "resume.txt", fileType := "text/plain" }

/-- A second PDF file input, used for the superseding-request schedule. -/
def pdfFileB : ResumeFile := { name := "newer.pdf", fileType := "application/pdf" }

/-- The component state after a valid PDF has been selected and the
extraction request has been issued, before it resolves. -/
def pendingState : FormState := (uploadStart manualState (some pdfFile)).1

/-- The final state of the schedule in which request A is issued, request
B is issued while A is pending, B resolves first with its skill list, and
A resolves last with its own skill list. -/
def racedFinal : FormState :=
  let s1 := (uploadStart manualState (some pdfFile)).1
  let s2 := (uploadStart s1 (some pdfFileB)).1
  let s3 := (uploadFinish s2 (.success (.listValue ["B-Tech"]))).1
  (uploadFinish s3 (.success (.listValue ["A-Tech"]))).1

/-- A string has length zero exactly when it is the empty string. -/
theorem string_length_eq_zero (s : String) : s.length = 0 ↔ s = "" := by
  cases s with
  | mk data => simp [String.length, String.ext_iff]

/-- The falsy-or-trimmed-empty test of the superRefine condition holds
exactly when the trimmed description is empty. -/
theorem descCondIff (s : String) :
    ((s == "" || (jsTrim s).length == 0) = true) ↔ jsTrim s = "" := by
  constructor
  · intro h
    rcases Bool.or_eq_true_iff.mp h with h1 | h2
    · have hs : s = "" := by simpa using h1
      simp [hs, jsTrim]
    · have hl : (jsTrim s).length = 0 := by simpa using h2
      exact (string_length_eq_zero _).mp hl
  · intro h
    apply Bool.or_eq_true_iff.mpr
    right
    simp [h]

/-- Closed form of descriptionError: an error exactly when the hasResume
value is not true (false or absent) and the trimmed description is empty. -/
theorem descriptionError_eq (d : JobInfoDraft) :
    descriptionError d =
      (if d.hasResume.getD false = false ∧ jsTrim d.description = ""
       then some "Required" else none) := by
  unfold descriptionError
  by_cases h1 : d.hasResume.getD false <;> by_cases h2 : jsTrim d.description = ""
  · simp [h1, h2]
  · simp [h1, h2]
  · simp [h1, h2, (descCondIff _).mpr h2]
  · have hc : (d.description == "" || (jsTrim d.description).length == 0) = false := by
      rcases hb : (d.description == "" || (jsTrim d.description).length == 0) with _ | _
      · rfl
      · exact absurd ((descCondIff _).mp hb) h2
    simp [h1, h2, hc]

/-- Each single technologies-list operation preserves freedom from
duplicates, provided an extraction application carries a duplicate-free
list. -/
theorem applyTechOp_nodup (l : List String) (op : TechOp)
    (hl : l.Nodup) (hop : extractionDupFree op = true) :
    (applyTechOp l op).Nodup := by
  cases op with
  | add tech =>
      unfold applyTechOp addTech
      by_cases h : tech ∈ l
      · simp [h, hl]
      · have hc : l.contains tech = false := by simpa using h
        simp [hc, List.nodup_append, h, hl]
  | remove tech => exact hl.filter _
  | clear => exact List.nodup_nil
  | applyExtraction skills => exact of_decide_eq_true hop

/-- Folding any sequence of duplicate-safe operations over a
duplicate-free list yields a duplicate-free list. -/
theorem foldTechOps_nodup (ops : List TechOp) :
    ∀ l : List String, l.Nodup → (∀ op ∈ ops, extractionDupFree op = true) →
      (ops.foldl applyTechOp l).Nodup := by
  induction ops with
  | nil => intro l hl _; simpa using hl
  | cons op ops ih =>
      intro l hl hops
      simp only [List.foldl_cons]
      exact ih _ (applyTechOp_nodup l op hl (hops op (List.mem_cons_self _ _)))
        (fun o ho => hops o (List.mem_cons_of_mem _ ho))

/-- C1: for every draft carrying an explicit hasResume boolean, the
validation reports the error "Required" on the description field exactly
when hasResume is false and the description is empty after trimming; in
particular, when hasResume is true no error is reported on description,
regardless of its content. -/
theorem C1_description_error_characterization (d : JobInfoDraft) (b : Bool)
    (h : d.hasResume = some b) :
    (descriptionError d = some "Required" ↔ (b = false ∧ jsTrim d.description = "")) ∧
    (b = true → descriptionError d = none) := by
  rw [descriptionError_eq, h]
  cases b with
  | false => by_cases h2 : jsTrim d.description = "" <;> simp [h2]
  | true => simp

/-- Witness for C1 at a concrete draft with hasResume true and empty
description: no error is reported. -/
theorem C1_witness :
    (sampleDraft "" (some true)).hasResume = some true ∧
    ((descriptionError (sampleDraft "" (some true)) = some "Required" ↔
        (true = false ∧ jsTrim (sampleDraft "" (some true)).description = "")) ∧
      (true = true → descriptionError (sampleDraft "" (some true)) = none)) :=
  ⟨rfl, C1_description_error_characterization (sampleDraft "" (some true)) true rfl⟩

/-- C10: when the hasResume field is absent (undefined), validation treats
it exactly like hasResume equal to false: the description error "Required"
is reported exactly when the trimmed description is empty. -/
theorem C10_absent_treated_as_false (d : JobInfoDraft) (h : d.hasResume = none) :
    descriptionError d = some "Required" ↔ jsTrim d.description = "" := by
  rw [descriptionError_eq, h]
  by_cases h2 : jsTrim d.description = "" <;> simp [h2]

/-- Witness for C10 at a concrete draft with absent hasResume and a
whitespace-only description: the error is reported. -/
theorem C10_witness :
    (sampleDraft "   " none).hasResume = none ∧
    (descriptionError (sampleDraft "   " none) = some "Required" ↔
      jsTrim (sampleDraft "   " none).description = "") :=
  ⟨rfl, C10_absent_treated_as_false (sampleDraft "   " none) rfl⟩

/-- C7 counterexample: the claim states that a whitespace-only name is an
error, but the source checks the untrimmed length (min(1)), so a draft
whose name is a single space trims to empty yet produces no name error. -/
theorem C7_counterexample :
    jsTrim (sampleDraftNamed " ").name = "" ∧ nameError (sampleDraftNamed " ") = none := by
  decide

/-- C7 amended: validation reports the error "Required" on the name field
exactly when the name is the empty string; the value is not trimmed, so a
whitespace-only name is accepted. -/
theorem C7_name_error_iff_empty (d : JobInfoDraft) :
    nameError d = some "Required" ↔ d.name = "" := by
  unfold nameError
  rcases Nat.lt_or_ge d.name.length 1 with h | h
  · have h0 : d.name = "" := (string_length_eq_zero d.name).mp (Nat.lt_one_iff.mp h)
    simp [h, h0]
  · have h1 : ¬ d.name.length < 1 := Nat.not_lt.mpr h
    have h0 : d.name ≠ "" := by
      intro he
      rw [he] at h
      exact absurd h (by decide)
    simp [h1, h0]

/-- C9 counterexample: the claim states the title field never receives an
error, but z.string().min(1).nullable() rejects the empty string, so a
draft whose title is the empty (non-null) string produces an error. -/
theorem C9_counterexample :
    titleError (sampleDraftTitled (some "")) =
      some "String must contain at least 1 character(s)" ∧
    titleError (sampleDraftTitled (some "")) ≠ none := by
  decide

/-- C9 amended: validation reports no error on the title field exactly
when the title is null or a nonempty string; the empty (non-null) string
receives the too-small error. -/
theorem C9_title_error_iff_empty_string (d : JobInfoDraft) :
    titleError d = none ↔ d.title ≠ some "" := by
  unfold titleError
  cases ht : d.title with
  | none => simp
  | some t =>
      rcases Nat.lt_or_ge t.length 1 with h | h
      · have h0 : t = "" := (string_length_eq_zero t).mp (Nat.lt_one_iff.mp h)
        simp [h, h0]
      · have h1 : ¬ t.length < 1 := Nat.not_lt.mpr h
        have h0 : t ≠ "" := by
          intro he
          rw [he] at h
          exact absurd h (by decide)
        simp [h1, h0]

/-- C8: add is a no-op when the name is already present (case-sensitive
exact match) and otherwise appends the name to the end; consequently it is
idempotent, and a first add of a fresh name grows the list by exactly one
element. -/
theorem C8_add_characterization (l : List String) (t : String) :
    (t ∈ l → addTech l t = l) ∧
    (t ∉ l → addTech l t = l ++ [t]) ∧
    addTech (addTech l t) t = addTech l t ∧
    (t ∉ l → (addTech l t).length = l.length + 1) := by
  by_cases h : t ∈ l
  · refine ⟨fun _ => by simp [addTech, h], fun hn => absurd h hn, by simp [addTech, h],
      fun hn => absurd h hn⟩
  · have h1 : addTech l t = l ++ [t] := by
      simp [addTech, h]
    refine ⟨fun hm => absurd hm h, fun _ => h1, ?_, fun _ => by simp [h1]⟩
    rw [h1]
    have hc2 : (l ++ [t]).contains t = true := by simp
    simp [addTech, hc2, h1]

/-- Witness for C8 at a concrete fresh add: adding Rust to a list holding
Go appends it, a second add changes nothing, and the length grew by one. -/
theorem C8_witness :
    ("Rust" ∉ (["Go"] : List String)) ∧
    addTech ["Go"] "Rust" = ["Go"] ++ ["Rust"] ∧
    addTech (addTech ["Go"] "Rust") "Rust" = addTech ["Go"] "Rust" ∧
    (addTech ["Go"] "Rust").length = (["Go"] : List String).length + 1 := by
  have h := C8_add_characterization ["Go"] "Rust"
  have hn : "Rust" ∉ (["Go"] : List String) := by decide
  exact ⟨hn, h.2.1 hn, h.2.2.1, h.2.2.2 hn⟩

/-- C6: selecting a file whose media type is not application/pdf, while in
manual state with hasResume false, performs no network call (the handler
result is rejectedInvalidType, not requested), surfaces the invalid-file
toast, and leaves the state unchanged: still manual, hasResume still
false, all fields untouched. -/
theorem C6_invalid_file_rejected (s : FormState) (f : ResumeFile)
    (hmode : s.useResumeMode = false) (hres : s.draft.hasResume = some false)
    (hty : f.fileType ≠ "application/pdf") :
    uploadStart s (some f) =
      (s, [Toast.error "Please upload a PDF file"], UploadStartResult.rejectedInvalidType) ∧
    (uploadStart s (some f)).1.draft.hasResume = some false ∧
    (uploadStart s (some f)).1.useResumeMode = false := by
  have hb : (f.fileType != "application/pdf") = true := by simp [hty]
  refine ⟨?_, ?_, ?_⟩ <;> simp [uploadStart, hb, hres, hmode]

/-- Witness for C6 at the initial manual state and a text file. -/
theorem C6_witness :
    manualState.useResumeMode = false ∧
    manualState.draft.hasResume = some false ∧
    txtFile.fileType ≠ "application/pdf" ∧
    (uploadStart manualState (some txtFile) =
        (manualState, [Toast.error "Please upload a PDF file"],
          UploadStartResult.rejectedInvalidType) ∧
      (uploadStart manualState (some txtFile)).1.draft.hasResume = some false ∧
      (uploadStart manualState (some txtFile)).1.useResumeMode = false) :=
  ⟨rfl, rfl, by decide, C6_invalid_file_rejected manualState txtFile rfl rfl (by decide)⟩

/-- C2 counterexample: starting from the manual state, selecting a valid
PDF and then having the extraction fail leaves hasResume equal to true;
the claim states it is reverted to false, but the catch block never
touches the hasResume form value. -/
theorem C2_counterexample :
    ((uploadFinish (uploadStart manualState (some pdfFile)).1
        FetchOutcome.failure).1).draft.hasResume = some true ∧
    ((uploadFinish (uploadStart manualState (some pdfFile)).1
        FetchOutcome.failure).1).draft.hasResume ≠ some false := by
  decide

/-- C2 amended: on a thrown failure (transport error or non-ok status) the
handler surfaces an error toast, discards the attached file and returns
the capture state to manual, but hasResume keeps its previous value (it
remains true after an optimistic upload start); on a malformed response
(skills field absent or not a list) the handler only surfaces a warning
and clears the parsing flag, leaving file, mode and hasResume unchanged. -/
theorem C2_failure_behavior (s : FormState) :
    (uploadFinish s FetchOutcome.failure).2 =
      [Toast.error "Failed to parse resume. Please try again."] ∧
    (uploadFinish s FetchOutcome.failure).1.resumeFile = none ∧
    (uploadFinish s FetchOutcome.failure).1.useResumeMode = false ∧
    (uploadFinish s FetchOutcome.failure).1.draft.hasResume = s.draft.hasResume ∧
    (uploadFinish s (FetchOutcome.success SkillsField.absent)).1 =
      { s with isParsingResume := false } ∧
    (uploadFinish s (FetchOutcome.success SkillsField.nonListValue)).1 =
      { s with isParsingResume := false } :=
  ⟨rfl, rfl, rfl, rfl, rfl, rfl⟩

/-- C3 counterexample: a successful extraction returning a list with a
duplicate is applied verbatim, so Go, Go, Rust stays Go, Go, Rust rather
than the deduplicated Go, Rust the claim states. -/
theorem C3_counterexample :
    ((uploadFinish pendingState
        (FetchOutcome.success (SkillsField.listValue ["Go", "Go", "Rust"]))).1).draft.technologies =
      ["Go", "Go", "Rust"] ∧
    ((uploadFinish pendingState
        (FetchOutcome.success (SkillsField.listValue ["Go", "Go", "Rust"]))).1).draft.technologies ≠
      ["Go", "Rust"] := by
  decide

/-- C3 amended: a successful extraction substitutes the entire technology
collection with the returned list exactly as given, with no
deduplication. -/
theorem C3_extraction_applies_verbatim (s : FormState) (skills : List String) :
    ((uploadFinish s (FetchOutcome.success (SkillsField.listValue skills))).1).draft.technologies =
      skills := rfl

/-- C4 counterexample: the duplicate-freedom invariant fails because a
successful extraction assigns its list verbatim; applying an extraction
carrying a duplicate to the empty list yields a list with a repeat. -/
theorem C4_counterexample :
    ¬ (runTechOps [TechOp.applyExtraction ["Go", "Go"]]).Nodup := by
  decide

/-- C4 amended: the technology list is duplicate-free in every state
reachable from the empty list by add, remove, clear and
successful-extraction apply, provided every applied extraction list is
itself duplicate-free; without that proviso an extraction can introduce
duplicates. -/
theorem C4_nodup_invariant (ops : List TechOp)
    (h : ∀ op ∈ ops, extractionDupFree op = true) :
    (runTechOps ops).Nodup :=
  foldTechOps_nodup ops [] List.nodup_nil h

/-- Witness for C4 at a concrete operation sequence whose extraction list
is duplicate-free. -/
theorem C4_witness :
    (∀ op ∈ [TechOp.add "Go", TechOp.applyExtraction ["Py", "SQL"],
        TechOp.add "Py", TechOp.remove "Go"], extractionDupFree op = true) ∧
    (runTechOps [TechOp.add "Go", TechOp.applyExtraction ["Py", "SQL"],
        TechOp.add "Py", TechOp.remove "Go"]).Nodup :=
  ⟨by decide, C4_nodup_invariant _ (by decide)⟩

/-- C5 counterexample: with request A issued, request B issued while A is
pending, B resolving first and A resolving last, the final technology list
holds the result of A, not of B: there is no request token and results are
applied in resolution order. -/
theorem C5_counterexample :
    racedFinal.draft.technologies = ["A-Tech"] ∧
    racedFinal.draft.technologies ≠ ["B-Tech"] := by
  decide

/-- C5 amended: the handler has no request token; every resolving request
applies its result unconditionally, so when request A resolves after the
superseding request B, the final technology list is A's result
(last-resolution-wins). Overlapping requests are prevented only by the
file input being disabled while a request is pending. -/
theorem C5_last_resolution_wins (s : FormState) (fA fB : ResumeFile)
    (skA skB : List String)
    (hA : fA.fileType = "application/pdf") (hB : fB.fileType = "application/pdf") :
    ((uploadFinish
        ((uploadFinish
            ((uploadStart ((uploadStart s (some fA)).1) (some fB)).1)
            (FetchOutcome.success (SkillsField.listValue skB))).1)
        (FetchOutcome.success (SkillsField.listValue skA))).1).draft.technologies = skA := by
  simp [uploadStart, uploadFinish, hA, hB]

/-- Witness for C5 at the concrete raced schedule. -/
theorem C5_witness :
    pdfFile.fileType = "application/pdf" ∧
    pdfFileB.fileType = "application/pdf" ∧
    ((uploadFinish
        ((uploadFinish
            ((uploadStart ((uploadStart manualState (some pdfFile)).1) (some pdfFileB)).1)
            (FetchOutcome.success (SkillsField.listValue ["B-Tech"]))).1)
        (FetchOutcome.success (SkillsField.listValue ["A-Tech"]))).1).draft.technologies =
      ["A-Tech"] :=
  ⟨rfl, rfl,
    C5_last_resolution_wins manualState pdfFile pdfFileB ["A-Tech"] ["B-Tech"] rfl rfl⟩
